import Mathlib

/-
Verification of the Terra data-model exporter
(src/tools/data-model-exporter/data_model_exporter/dmExporter.py).

The exporter reads an RDF graph (parsed from Turtle by rdflib) and, for each
requested class name, assembles a JSON Schema document.  We shallowly embed
the graph data model and the functions `ttl_to_json`, `rdf_to_json`,
`write_to_json` / `main` of dmExporter.py as executable Lean definitions and
prove the stated properties about them.

Modelling conventions:
- An rdflib graph is a finite set of triples; we model it as a list of
  triples together with the namespace bindings of its namespace manager.
  `Graph.triples ((s, None, None))` filters by subject preserving order, and
  `Graph.value s p` returns the object of the first matching triple (rdflib
  returns an arbitrary matching value; the list order stands in for the
  store's iteration order).
- rdflib nodes (URIRef / BNode / Literal) become the inductive `Node`.
  Literals carry either an integer value (integer-typed literal, whose
  lexical form is nonempty, hence truthy in Python) or a string value.
- Python exceptions are modelled with `Except PyErr`; the places where the
  Python code can raise (calling `.n3` on `None` when `owl:onProperty` is
  missing, and `.value` on a non-Literal cardinality) return `.error`.
- Python dicts are insertion-ordered association lists; assignment to an
  existing key replaces the value in place (last write wins), assignment to
  a fresh key appends.
-/

/-- RDF node: an IRI reference, a blank node, or a literal.  Integer-typed
literals are kept separately from string literals so that the Python
comparison `literal.value == 1` can be modelled exactly. -/
inductive Node where
  | iri (s : String)
  | blank (n : Nat)
  | litInt (v : Int)
  | litStr (v : String)
deriving Repr, DecidableEq

/-- An rdflib graph: the triples it holds, in store order, plus the
namespace bindings of its namespace manager, as (short name, namespace IRI)
pairs in binding order. -/
structure Graph where
  triples : List (Node × Node × Node)
  nsBindings : List (String × String)
deriving Repr, DecidableEq

/-- `Terra = Namespace("http://datamodel.terra.bio/TerraDCAT_ap#")` (line 15). -/
def terraNS : String := "http://datamodel.terra.bio/TerraDCAT_ap#"

/-- `Terra.term(class_name)`: resolve a class name against the Terra namespace. -/
def Terra.term (class_name : String) : Node := .iri (terraNS ++ class_name)

/-- `OWL.equivalentClass` from rdflib's OWL namespace. -/
def OWL.equivalentClass : Node := .iri "http://www.w3.org/2002/07/owl#equivalentClass"

/-- `OWL.cardinality` from rdflib's OWL namespace. -/
def OWL.cardinality : Node := .iri "http://www.w3.org/2002/07/owl#cardinality"

/-- `OWL.onProperty` from rdflib's OWL namespace. -/
def OWL.onProperty : Node := .iri "http://www.w3.org/2002/07/owl#onProperty"

/-- `RDFS.label` from rdflib's RDFS namespace. -/
def RDFS.label : Node := .iri "http://www.w3.org/2000/01/rdf-schema#label"

/-- `RDFS.range` from rdflib's RDFS namespace. -/
def RDFS.range : Node := .iri "http://www.w3.org/2000/01/rdf-schema#range"

/-- `Prov = Namespace("http://www.w3.org/ns/prov#")` (line 17); `Prov.definition`. -/
def Prov.definition : Node := .iri "http://www.w3.org/ns/prov#definition"

/-- `g.triples((s, None, None))`: all triples with the given subject,
in store order (lines 90-91). -/
def Graph.triplesWithSubject (g : Graph) (s : Node) : List (Node × Node × Node) :=
  g.triples.filter (fun t => t.1 == s)

/-- `g.value(s, p, None)`: the object of some triple matching the given
subject and predicate, or `None`; our list model returns the first match
(lines 97, 98, 103, 116, 118). -/
def Graph.value (g : Graph) (s p : Node) : Option Node :=
  (g.triples.find? (fun t => t.1 == s && t.2.1 == p)).map (fun t => t.2.2)

/-- `node.n3(g.namespace_manager)` (line 100): the compact (qname) form of
an IRI when some bound namespace is a textual prefix of it, else the
`<iri>` form.  (rdflib additionally checks that the local part is a valid
NCName; the fixture graphs used here all satisfy that.)  Blank nodes render
as `_:id`, literals in their N3 lexical forms. -/
def n3 (g : Graph) : Node → String
  | .iri s =>
    match g.nsBindings.find? (fun b => List.isPrefixOf b.2.data s.data) with
    | some b => b.1 ++ ":" ++ (s.drop b.2.length)
    | none => "<" ++ s ++ ">"
  | .blank n => "_:b" ++ toString n
  | .litInt v =>
    "\"" ++ toString v ++ "\"^^<http://www.w3.org/2001/XMLSchema#integer>"
  | .litStr v => "\"" ++ v ++ "\""

/-- Python `str(x)` on an optional node: `str(None)` is the string `"None"`;
a URIRef stringifies to its IRI text, a literal to its lexical form, a
blank node to its internal id (line 118). -/
def pyStr : Option Node → String
  | none => "None"
  | some (.iri s) => s
  | some (.blank n) => "b" ++ toString n
  | some (.litInt v) => toString v
  | some (.litStr v) => v

/-- A Python exception escaping `ttl_to_json`. -/
inductive PyErr where
  | attributeError (msg : String)
deriving Repr, DecidableEq

/-- A value of the `properties` dict: the two hardcoded entries have fields
`description`/`type` (lines 76-85) while discovered entries have fields
`description`/`$ref` (lines 104-107). -/
inductive PropVal where
  | fixedEntry (description : String) (jtype : String)
  | derivedEntry (description : String) (ref : Option Node)
deriving Repr, DecidableEq

/-- Python dict assignment `d[k] = v` on an insertion-ordered association
list: replace in place when the key exists, append otherwise. -/
def dictInsert {α : Type} (d : List (String × α)) (k : String) (v : α) :
    List (String × α) :=
  if d.any (fun e => e.1 == k) then
    d.map (fun e => if e.1 == k then (k, v) else e)
  else d ++ [(k, v)]

/-- The initial `properties` dict (lines 76-85). -/
def init_properties : List (String × PropVal) :=
  [("describedBy",
    .fixedEntry "The URL reference to the JSON Schema that defines this object." "string"),
   ("id", .fixedEntry "UUID for this entity." "string")]

/-- Line 110: `if cardinality and cardinality.value == 1`.  `None` is falsy;
a Literal is truthy when its lexical form is nonempty (lexical forms of
integer literals always are) and then `.value == 1` holds exactly for the
integer literal 1 (a string value never equals the int 1 in Python); the
empty string literal is falsy; a URIRef or BNode is truthy but has no
`.value` attribute, raising AttributeError. -/
def card_check : Option Node → Except PyErr Bool
  | none => .ok false
  | some (.litInt v) => .ok (v == 1)
  | some (.litStr _) => .ok false
  | some (.iri _) => .error (.attributeError "URIRef object has no attribute value")
  | some (.blank _) => .error (.attributeError "BNode object has no attribute value")

/-- The loop body for one `owl:equivalentClass` triple (lines 93-111): read
the container's `owl:cardinality` and `owl:onProperty` values, compute the
compact form of the property IRI (raising AttributeError if the property is
`None`), look up its `rdfs:range`, store the entry in `properties`, and
append the compact key to `required` when the cardinality check passes. -/
def processContainer (g : Graph) (st : List (String × PropVal) × List String)
    (container_node : Node) :
    Except PyErr (List (String × PropVal) × List String) :=
  let cardinality := g.value container_node OWL.cardinality
  match g.value container_node OWL.onProperty with
  | none => .error (.attributeError "NoneType object has no attribute n3")
  | some prop =>
    let ref := n3 g prop
    let rdfs_range_value := g.value prop RDFS.range
    let props := dictInsert st.1 ref (.derivedEntry ref rdfs_range_value)
    match card_check cardinality with
    | .error e => .error e
    | .ok b => .ok (props, if b then st.2 ++ [ref] else st.2)

/-- The `for triple in term_triples` loop (lines 91-111), threading the
`(properties, required)` state through the triples whose predicate is
`owl:equivalentClass`. -/
def process_triples (g : Graph) :
    List (Node × Node × Node) → List (String × PropVal) × List String →
    Except PyErr (List (String × PropVal) × List String)
  | [], st => .ok st
  | t :: ts, st =>
    if t.2.1 == OWL.equivalentClass then
      match processContainer g st t.2.2 with
      | .error e => .error e
      | .ok st2 => process_triples g ts st2
    else process_triples g ts st

/-- The JSON Schema document assembled at lines 113-124. -/
structure JsonSchema where
  id : Node
  schema : String
  title : Option Node
  description : String
  definitions : List (String × PropVal)
  jtype : String
  additionalProperties : Bool
  properties : List (String × PropVal)
  required : List String
deriving Repr, DecidableEq

/-- `ttl_to_json(file_path, class_name)` (lines 64-125), applied to the
already-parsed graph: resolve the class name in the Terra namespace, walk
its `owl:equivalentClass` triples, and assemble the document. -/
def ttl_to_json (g : Graph) (class_name : String) : Except PyErr JsonSchema :=
  let rdf_term := Terra.term class_name
  match process_triples g (g.triplesWithSubject rdf_term)
      (init_properties, ["id", "describedBy"]) with
  | .error e => .error e
  | .ok st =>
    .ok { id := rdf_term
          schema := "http://json-schema.org/draft-07/schema#/"
          title := g.value rdf_term RDFS.label
          description := pyStr (g.value rdf_term Prov.definition)
          definitions := []
          jtype := "object"
          additionalProperties := true
          properties := st.1
          required := st.2 }

/-- `rdf_to_json(file_path, class_list)` (lines 128-136): the dict
comprehension evaluates `ttl_to_json` for every class, in order, before
anything is written; the first exception aborts the whole comprehension. -/
def rdf_to_json (g : Graph) :
    List String → List (String × JsonSchema) →
    Except PyErr (List (String × JsonSchema))
  | [], d => .ok d
  | c :: cs, d =>
    match ttl_to_json g c with
    | .error e => .error e
    | .ok s => rdf_to_json g cs (dictInsert d c s)

/-- The write loop of `main` (lines 151-158) over a finished `json_dict`:
one `<class>.json` file per key, behind an interactive overwrite prompt
when the file already exists.  `fileExists` models the `path.exists` test
and `answer` the `input(...)` reply; the result lists the files written, in
order. -/
def write_files (json_dict : List (String × JsonSchema))
    (fileExists : String → Bool) (answer : String → String) : List String :=
  json_dict.foldl (fun written kv =>
    let out_file_name := kv.1 ++ ".json"
    if fileExists out_file_name then
      if answer out_file_name == "y" then written ++ [out_file_name] else written
    else written ++ [out_file_name]) []

/-- `main` after argument parsing (lines 145-158): run `rdf_to_json` over
the whole class list, then write one file per class.  An exception in
`rdf_to_json` propagates before the write loop starts, so no file at all is
written in that case.  Returns the written files and the escaping
exception, if any. -/
def main_run (g : Graph) (class_list : List String)
    (fileExists : String → Bool) (answer : String → String) :
    List String × Option PyErr :=
  match rdf_to_json g class_list [] with
  | .error e => ([], some e)
  | .ok json_dict => (write_files json_dict fileExists answer, none)

/-! Spec-side views of the extraction loop, used to state the claims. -/

/-- The result is an error (an uncaught Python exception). -/
def isError {α : Type} : Except PyErr α → Bool
  | .error _ => true
  | .ok _ => false

/-- The container nodes reached through `owl:equivalentClass` predicates in
a triple list, in order. -/
def containerNodes (l : List (Node × Node × Node)) : List Node :=
  (l.filter (fun t => t.2.1 == OWL.equivalentClass)).map (fun t => t.2.2)

/-- The container nodes of a class: objects of the `owl:equivalentClass`
triples whose subject is the resolved class IRI, in store order. -/
def containersOf (g : Graph) (class_name : String) : List Node :=
  containerNodes (g.triplesWithSubject (Terra.term class_name))

/-- The compact key of a container: the qname form of its `owl:onProperty`
value, when that value exists. -/
def containerKey (g : Graph) (c : Node) : Option String :=
  (g.value c OWL.onProperty).map (n3 g)

/-- The container's `owl:cardinality` value is the integer literal 1. -/
def cardIsOne (g : Graph) (c : Node) : Bool :=
  match g.value c OWL.cardinality with
  | some (.litInt v) => v == 1
  | _ => false

/-- What one container contributes to `required`: its compact key when its
cardinality is exactly 1, nothing otherwise. -/
def reqContrib (g : Graph) (c : Node) : List String :=
  match g.value c OWL.onProperty with
  | none => []
  | some p => if cardIsOne g c then [n3 g p] else []

/-- What one container contributes to `properties`: the dict entry keyed by
its compact key, whose description repeats the key and whose reference is
the property's `rdfs:range` value. -/
def entryContrib (g : Graph) (c : Node) : List (String × PropVal) :=
  match g.value c OWL.onProperty with
  | none => []
  | some p => [(n3 g p, .derivedEntry (n3 g p) (g.value p RDFS.range))]

/-- Concatenation of the images of a list under a list-valued function. -/
def catMap {α β : Type} (f : α → List β) : List α → List β
  | [] => []
  | a :: as => f a ++ catMap f as

/-- Repeated Python dict assignment of a list of entries. -/
def insertEntries {α : Type} (d : List (String × α)) (es : List (String × α)) :
    List (String × α) :=
  es.foldl (fun d2 e => dictInsert d2 e.1 e.2) d

/-- The keys of a dict, in insertion order. -/
def dictKeys {α : Type} (d : List (String × α)) : List String :=
  d.map (fun e => e.1)

/-- Keys accumulated in first-occurrence order on top of an initial key
list: duplicates of a key already present are dropped. -/
def accumKeys (init : List String) (ks : List String) : List String :=
  ks.foldl (fun acc k => if k ∈ acc then acc else acc ++ [k]) init

/-! Fixture graphs for witnesses and counterexamples. -/

/-- Base IRI of the example vocabulary used in fixtures. -/
def exNS : String := "http://example.org/"

/-- Fixture for the end-to-end test: class `Foo` with one container
referencing property `ex:bar` with cardinality 1 and range `xsd:string`. -/
def g8 : Graph :=
  { triples :=
      [(Terra.term "Foo", OWL.equivalentClass, .blank 0),
       (.blank 0, OWL.onProperty, .iri (exNS ++ "bar")),
       (.blank 0, OWL.cardinality, .litInt 1),
       (.iri (exNS ++ "bar"), RDFS.range,
        .iri "http://www.w3.org/2001/XMLSchema#string")]
    nsBindings := [("ex", exNS), ("xsd", "http://www.w3.org/2001/XMLSchema#")] }

/-- Fixture with three containers: `ex:a` with cardinality 1, `ex:b` with
cardinality 2, `ex:c` with no cardinality. -/
def g1 : Graph :=
  { triples :=
      [(Terra.term "Foo", OWL.equivalentClass, .blank 0),
       (.blank 0, OWL.onProperty, .iri (exNS ++ "a")),
       (.blank 0, OWL.cardinality, .litInt 1),
       (Terra.term "Foo", OWL.equivalentClass, .blank 1),
       (.blank 1, OWL.onProperty, .iri (exNS ++ "b")),
       (.blank 1, OWL.cardinality, .litInt 2),
       (Terra.term "Foo", OWL.equivalentClass, .blank 2),
       (.blank 2, OWL.onProperty, .iri (exNS ++ "c"))]
    nsBindings := [("ex", exNS)] }

/-- Fixture with two distinct containers whose `owl:onProperty` values
compact to the same key `ex:bar`, both with cardinality 1. -/
def g10 : Graph :=
  { triples :=
      [(Terra.term "Foo", OWL.equivalentClass, .blank 0),
       (.blank 0, OWL.onProperty, .iri (exNS ++ "bar")),
       (.blank 0, OWL.cardinality, .litInt 1),
       (Terra.term "Foo", OWL.equivalentClass, .blank 1),
       (.blank 1, OWL.onProperty, .iri (exNS ++ "bar")),
       (.blank 1, OWL.cardinality, .litInt 1)]
    nsBindings := [("ex", exNS)] }

/-- Fixture with a malformed container: class `Bad` has an
`owl:equivalentClass` container with a cardinality but no `owl:onProperty`
value; class `Good` is well formed. -/
def g6 : Graph :=
  { triples :=
      [(Terra.term "Good", OWL.equivalentClass, .blank 0),
       (.blank 0, OWL.onProperty, .iri (exNS ++ "a")),
       (.blank 0, OWL.cardinality, .litInt 1),
       (Terra.term "Bad", OWL.equivalentClass, .blank 1),
       (.blank 1, OWL.cardinality, .litInt 1)]
    nsBindings := [("ex", exNS)] }

/-- The empty graph. -/
def g0 : Graph := { triples := [], nsBindings := [] }

/-! Helper projections on extraction results. -/

/-- The `properties` dict of a successful extraction. -/
def okProperties : Except PyErr JsonSchema → Option (List (String × PropVal))
  | .ok d => some d.properties
  | .error _ => none

/-- The `required` list of a successful extraction. -/
def okRequired : Except PyErr JsonSchema → Option (List String)
  | .ok d => some d.required
  | .error _ => none

/-- Look up a key in the `properties` dict of a successful extraction. -/
def lookupProp (r : Except PyErr JsonSchema) (k : String) : Option PropVal :=
  match r with
  | .ok d => (d.properties.find? (fun e => e.1 == k)).map (fun e => e.2)
  | .error _ => none

/-- The `$ref` field of a discovered property entry. -/
def refOf : Option PropVal → Option (Option Node)
  | some (.derivedEntry _ r) => some r
  | _ => none

/-- The JSON value `json.dump` writes for a `$ref` field: `None` becomes
JSON `null` (modelled `none`), and any rdflib node — URIRef, BNode or
Literal, all of which are `str` subclasses — is serialized as its full
string text, with no namespace compaction. -/
def refJson : Option Node → Option String
  | none => none
  | some (.iri s) => some s
  | some (.blank n) => some ("b" ++ toString n)
  | some (.litInt v) => some (toString v)
  | some (.litStr v) => some v

/-- A constant file-system model: no output file exists yet. -/
def noFile : String → Bool := fun _ => false

/-- A constant reply to the overwrite prompt: always the empty string. -/
def noAnswer : String → String := fun _ => ""

/-! Characterization of a successful extraction. -/

lemma card_check_eq_cardIsOne (g : Graph) (c : Node) (b : Bool)
    (h : card_check (g.value c OWL.cardinality) = .ok b) : b = cardIsOne g c := by
  unfold cardIsOne
  cases ho : g.value c OWL.cardinality with
  | none => rw [ho] at h; simp [card_check] at h; simp [h]
  | some v =>
    rw [ho] at h
    cases v <;> simp [card_check] at h <;> simp [h]

lemma processContainer_ok (g : Graph) (st st2 : List (String × PropVal) × List String)
    (c : Node) (h : processContainer g st c = .ok st2) :
    st2.1 = insertEntries st.1 (entryContrib g c) ∧ st2.2 = st.2 ++ reqContrib g c := by
  unfold processContainer at h
  unfold entryContrib reqContrib
  cases hp : g.value c OWL.onProperty with
  | none => rw [hp] at h; simp at h
  | some p =>
    rw [hp] at h
    dsimp only at h
    cases hc : card_check (g.value c OWL.cardinality) with
    | error e => rw [hc] at h; simp at h
    | ok b =>
      rw [hc] at h
      simp only [Except.ok.injEq] at h
      have hb := card_check_eq_cardIsOne g c b hc
      subst hb
      subst h
      refine ⟨by simp [insertEntries], ?_⟩
      by_cases hone : cardIsOne g c = true <;> simp [hone]

lemma containerNodes_nil : containerNodes [] = [] := rfl

lemma containerNodes_cons (t : Node × Node × Node) (ts : List (Node × Node × Node)) :
    containerNodes (t :: ts) =
    if t.2.1 == OWL.equivalentClass then t.2.2 :: containerNodes ts
    else containerNodes ts := by
  unfold containerNodes
  cases h : t.2.1 == OWL.equivalentClass <;> simp [List.filter_cons, h]

lemma insertEntries_append {α : Type} (d : List (String × α))
    (es1 es2 : List (String × α)) :
    insertEntries d (es1 ++ es2) = insertEntries (insertEntries d es1) es2 := by
  simp [insertEntries, List.foldl_append]

lemma process_triples_ok (g : Graph) (l : List (Node × Node × Node)) :
    ∀ st res, process_triples g l st = .ok res →
    res.1 = insertEntries st.1 (catMap (entryContrib g) (containerNodes l)) ∧
    res.2 = st.2 ++ catMap (reqContrib g) (containerNodes l) := by
  induction l with
  | nil =>
    intro st res h
    simp [process_triples] at h
    subst h
    simp [containerNodes_nil, catMap, insertEntries]
  | cons t ts ih =>
    intro st res h
    rw [containerNodes_cons]
    cases hp : t.2.1 == OWL.equivalentClass with
    | false =>
      rw [process_triples, if_neg (by simp [hp])] at h
      simpa [hp] using ih st res h
    | true =>
      rw [process_triples, if_pos (by simp [hp])] at h
      cases hpc : processContainer g st t.2.2 with
      | error e => rw [hpc] at h; simp at h
      | ok st2 =>
        rw [hpc] at h
        obtain ⟨e1, e2⟩ := processContainer_ok g st st2 t.2.2 hpc
        obtain ⟨i1, i2⟩ := ih st2 res h
        constructor
        · rw [i1, e1]
          simp [catMap, insertEntries_append]
        · rw [i2, e2]
          simp [catMap]

lemma ttl_to_json_ok (g : Graph) (cn : String) (doc : JsonSchema)
    (h : ttl_to_json g cn = .ok doc) :
    doc.id = Terra.term cn ∧
    doc.schema = "http://json-schema.org/draft-07/schema#/" ∧
    doc.title = g.value (Terra.term cn) RDFS.label ∧
    doc.description = pyStr (g.value (Terra.term cn) Prov.definition) ∧
    doc.definitions = [] ∧
    doc.jtype = "object" ∧
    doc.additionalProperties = true ∧
    doc.properties = insertEntries init_properties
      (catMap (entryContrib g) (containersOf g cn)) ∧
    doc.required = ["id", "describedBy"] ++ catMap (reqContrib g) (containersOf g cn) := by
  unfold ttl_to_json at h
  dsimp only at h
  cases hpt : process_triples g (g.triplesWithSubject (Terra.term cn))
      (init_properties, ["id", "describedBy"]) with
  | error e => rw [hpt] at h; simp at h
  | ok st =>
    rw [hpt] at h
    simp only [Except.ok.injEq] at h
    obtain ⟨h1, h2⟩ := process_triples_ok g _ _ st hpt
    subst h
    exact ⟨rfl, rfl, rfl, rfl, rfl, rfl, rfl, h1, h2⟩

/-! Key-set lemmas for the Python dict model. -/

lemma any_key_iff_mem {α : Type} (d : List (String × α)) (k : String) :
    d.any (fun e => e.1 == k) = true ↔ k ∈ dictKeys d := by
  simp [dictKeys, List.any_eq_true, List.mem_map]

lemma dictKeys_dictInsert {α : Type} (d : List (String × α)) (k : String) (v : α) :
    dictKeys (dictInsert d k v) =
    if k ∈ dictKeys d then dictKeys d else dictKeys d ++ [k] := by
  unfold dictInsert
  by_cases h : k ∈ dictKeys d
  · rw [if_pos ((any_key_iff_mem d k).2 h), if_pos h]
    unfold dictKeys
    rw [List.map_map]
    apply List.map_congr_left
    intro e _
    by_cases he : e.1 = k
    · simp [he]
    · simp [he]
  · rw [if_neg (by rw [any_key_iff_mem]; exact h), if_neg h]
    simp [dictKeys]

lemma mem_dictKeys_insert {α : Type} {d : List (String × α)} {a k : String} (v : α)
    (h : a ∈ dictKeys d) : a ∈ dictKeys (dictInsert d k v) := by
  rw [dictKeys_dictInsert]
  split <;> simp [h]

lemma self_mem_dictKeys_insert {α : Type} (d : List (String × α)) (k : String) (v : α) :
    k ∈ dictKeys (dictInsert d k v) := by
  rw [dictKeys_dictInsert]
  split <;> simp_all

lemma mem_dictKeys_insertEntries {α : Type} (es : List (String × α)) :
    ∀ (d : List (String × α)) (a : String),
    a ∈ dictKeys d → a ∈ dictKeys (insertEntries d es) := by
  induction es with
  | nil => intro d a h; simpa [insertEntries] using h
  | cons e es ih =>
    intro d a h
    exact ih (dictInsert d e.1 e.2) a (mem_dictKeys_insert e.2 h)

lemma mem_entries_dictKeys_insertEntries {α : Type} (es : List (String × α)) :
    ∀ (d : List (String × α)) (a : String),
    a ∈ dictKeys es → a ∈ dictKeys (insertEntries d es) := by
  induction es with
  | nil => intro d a h; simp [dictKeys] at h
  | cons e es ih =>
    intro d a h
    rcases (by simpa [dictKeys] using h : a = e.1 ∨ a ∈ dictKeys es) with h1 | h2
    · subst h1
      exact mem_dictKeys_insertEntries es _ _ (self_mem_dictKeys_insert d e.1 e.2)
    · exact ih (dictInsert d e.1 e.2) a h2

lemma dictKeys_insertEntries {α : Type} (es : List (String × α)) :
    ∀ d : List (String × α),
    dictKeys (insertEntries d es) = accumKeys (dictKeys d) (dictKeys es) := by
  induction es with
  | nil => intro d; simp [insertEntries, accumKeys, dictKeys]
  | cons e es ih =>
    intro d
    have h1 : insertEntries d (e :: es) = insertEntries (dictInsert d e.1 e.2) es := rfl
    have h2 : dictKeys (e :: es) = e.1 :: dictKeys es := rfl
    rw [h1, h2, ih, dictKeys_dictInsert]
    rfl

lemma nodup_dictKeys_insert {α : Type} (d : List (String × α)) (k : String) (v : α)
    (h : (dictKeys d).Nodup) : (dictKeys (dictInsert d k v)).Nodup := by
  rw [dictKeys_dictInsert]
  split
  · exact h
  · next hk =>
    exact ((List.perm_append_singleton k (dictKeys d)).nodup_iff).2
      (List.nodup_cons.2 ⟨hk, h⟩)

lemma nodup_dictKeys_insertEntries {α : Type} (es : List (String × α)) :
    ∀ d : List (String × α),
    (dictKeys d).Nodup → (dictKeys (insertEntries d es)).Nodup := by
  induction es with
  | nil => intro d h; simpa [insertEntries] using h
  | cons e es ih =>
    intro d h
    exact ih (dictInsert d e.1 e.2) (nodup_dictKeys_insert d e.1 e.2 h)

lemma dictKeys_append {α : Type} (d1 d2 : List (String × α)) :
    dictKeys (d1 ++ d2) = dictKeys d1 ++ dictKeys d2 := by
  simp [dictKeys]

lemma dictKeys_catMap {α β : Type} (f : β → List (String × α)) (l : List β) :
    dictKeys (catMap f l) = catMap (fun b => dictKeys (f b)) l := by
  induction l with
  | nil => rfl
  | cons b l ih => simp only [catMap, dictKeys_append, ih]

lemma mem_catMap {α β : Type} {f : α → List β} {b : β} :
    ∀ {l : List α}, b ∈ catMap f l ↔ ∃ a ∈ l, b ∈ f a := by
  intro l
  induction l with
  | nil => simp [catMap]
  | cons a l ih => simp [catMap, ih]

/-! Per-container lemmas and error paths. -/

lemma dictKeys_entryContrib (g : Graph) (c : Node) :
    dictKeys (entryContrib g c) = (containerKey g c).toList := by
  unfold entryContrib containerKey
  cases g.value c OWL.onProperty <;> simp [dictKeys]

/-- The compact keys discovered for a class, container by container, in
store order and with repetitions. -/
def derivedKeys (g : Graph) (cn : String) : List String :=
  catMap (fun c => (containerKey g c).toList) (containersOf g cn)

lemma reqContrib_mem_entry_keys (g : Graph) (c : Node) :
    ∀ k ∈ reqContrib g c, k ∈ dictKeys (entryContrib g c) := by
  unfold reqContrib entryContrib
  cases g.value c OWL.onProperty
  · simp
  · split <;> simp [dictKeys]

lemma count_reqContrib (g : Graph) (c : Node) (k : String) :
    (reqContrib g c).count k =
    if containerKey g c == some k && cardIsOne g c then 1 else 0 := by
  unfold reqContrib containerKey
  cases g.value c OWL.onProperty with
  | none => simp
  | some p =>
    by_cases hc : cardIsOne g c = true
    · by_cases hk : n3 g p = k <;> simp [hc, hk, List.count_cons]
    · simp [hc, Bool.eq_false_iff.2 hc]

lemma count_catMap_reqContrib (g : Graph) (k : String) :
    ∀ cs : List Node,
    (catMap (reqContrib g) cs).count k =
    (cs.filter (fun c => containerKey g c == some k && cardIsOne g c)).length := by
  intro cs
  induction cs with
  | nil => simp [catMap]
  | cons c cs ih =>
    rw [show catMap (reqContrib g) (c :: cs) =
        reqContrib g c ++ catMap (reqContrib g) cs from rfl]
    rw [List.count_append, ih, count_reqContrib, List.filter_cons]
    by_cases h : (containerKey g c == some k && cardIsOne g c) = true
    · simp [h, Nat.add_comm]
    · simp [h]

lemma process_triples_error (g : Graph) (c : Node)
    (hc : g.value c OWL.onProperty = none) :
    ∀ (l : List (Node × Node × Node)) st,
    c ∈ containerNodes l → isError (process_triples g l st) = true := by
  intro l
  induction l with
  | nil => intro st h; simp [containerNodes_nil] at h
  | cons t ts ih =>
    intro st h
    rw [containerNodes_cons] at h
    cases hp : t.2.1 == OWL.equivalentClass with
    | false =>
      rw [process_triples, if_neg (by simp [hp])]
      rw [hp] at h
      exact ih st (by simpa using h)
    | true =>
      rw [process_triples, if_pos (by simp [hp])]
      rw [hp] at h
      rcases (by simpa using h : c = t.2.2 ∨ c ∈ containerNodes ts) with h1 | h2
      · have hct : g.value t.2.2 OWL.onProperty = none := by rw [← h1]; exact hc
        have hpc : processContainer g st t.2.2 =
            .error (.attributeError "NoneType object has no attribute n3") := by
          simp [processContainer, hct]
        rw [hpc]
        rfl
      · cases hpc : processContainer g st t.2.2 with
        | error e => rfl
        | ok st2 => exact ih st2 h2

lemma value_none_of_no_subject_triples (g : Graph) (s : Node)
    (h : g.triplesWithSubject s = []) (p : Node) : g.value s p = none := by
  unfold Graph.value
  have hf : List.find? (fun t => t.1 == s && t.2.1 == p) g.triples = none := by
    rw [List.find?_eq_none]
    intro t ht hb
    have hts : (t.1 == s) = true := by
      simp only [Bool.and_eq_true] at hb
      exact hb.1
    have hmem : t ∈ g.triples.filter (fun t => t.1 == s) := List.mem_filter.2 ⟨ht, hts⟩
    unfold Graph.triplesWithSubject at h
    rw [h] at hmem
    simp at hmem
  rw [hf]
  rfl

lemma rdf_to_json_error (g : Graph) :
    ∀ (cl : List String) (d : List (String × JsonSchema)),
    (∃ c ∈ cl, isError (ttl_to_json g c) = true) →
    isError (rdf_to_json g cl d) = true := by
  intro cl
  induction cl with
  | nil => intro d h; simp at h
  | cons c cs ih =>
    intro d h
    rw [rdf_to_json]
    cases ht : ttl_to_json g c with
    | error e => rfl
    | ok s =>
      rcases h with ⟨c2, hmem, herr⟩
      rcases List.mem_cons.1 hmem with h1 | h2
      · subst h1
        rw [ht] at herr
        simp [isError] at herr
      · exact ih (dictInsert d c s) ⟨c2, h2, herr⟩

lemma catMap_congr {α β : Type} (f f2 : α → List β) (l : List α)
    (h : ∀ a ∈ l, f a = f2 a) : catMap f l = catMap f2 l := by
  induction l with
  | nil => rfl
  | cons a l ih =>
    simp only [catMap]
    rw [h a (by simp), ih (fun a2 ha2 => h a2 (by simp [ha2]))]

/-! Concrete output documents of the fixture graphs. -/

/-- The document `ttl_to_json` produces for class `Foo` of `g8`. -/
def doc8 : JsonSchema :=
  { id := .iri "http://datamodel.terra.bio/TerraDCAT_ap#Foo"
    schema := "http://json-schema.org/draft-07/schema#/"
    title := none
    description := "None"
    definitions := []
    jtype := "object"
    additionalProperties := true
    properties :=
      [("describedBy",
        .fixedEntry "The URL reference to the JSON Schema that defines this object." "string"),
       ("id", .fixedEntry "UUID for this entity." "string"),
       ("ex:bar",
        .derivedEntry "ex:bar" (some (.iri "http://www.w3.org/2001/XMLSchema#string")))]
    required := ["id", "describedBy", "ex:bar"] }

/-- The document `ttl_to_json` produces for class `Foo` of `g1`. -/
def doc1 : JsonSchema :=
  { id := .iri "http://datamodel.terra.bio/TerraDCAT_ap#Foo"
    schema := "http://json-schema.org/draft-07/schema#/"
    title := none
    description := "None"
    definitions := []
    jtype := "object"
    additionalProperties := true
    properties :=
      [("describedBy",
        .fixedEntry "The URL reference to the JSON Schema that defines this object." "string"),
       ("id", .fixedEntry "UUID for this entity." "string"),
       ("ex:a", .derivedEntry "ex:a" none),
       ("ex:b", .derivedEntry "ex:b" none),
       ("ex:c", .derivedEntry "ex:c" none)]
    required := ["id", "describedBy", "ex:a"] }

/-- The document `ttl_to_json` produces for class `Foo` of `g10`. -/
def doc10 : JsonSchema :=
  { id := .iri "http://datamodel.terra.bio/TerraDCAT_ap#Foo"
    schema := "http://json-schema.org/draft-07/schema#/"
    title := none
    description := "None"
    definitions := []
    jtype := "object"
    additionalProperties := true
    properties :=
      [("describedBy",
        .fixedEntry "The URL reference to the JSON Schema that defines this object." "string"),
       ("id", .fixedEntry "UUID for this entity." "string"),
       ("ex:bar", .derivedEntry "ex:bar" none)]
    required := ["id", "describedBy", "ex:bar", "ex:bar"] }

/-- The document `ttl_to_json` produces for class `Foo` of the empty graph. -/
def doc0 : JsonSchema :=
  { id := .iri "http://datamodel.terra.bio/TerraDCAT_ap#Foo"
    schema := "http://json-schema.org/draft-07/schema#/"
    title := none
    description := "None"
    definitions := []
    jtype := "object"
    additionalProperties := true
    properties := init_properties
    required := ["id", "describedBy"] }

/-- Equality of extraction results is decidable, so concrete runs can be
checked by evaluation. -/
instance : DecidableEq (Except PyErr JsonSchema) := fun a b =>
  match a, b with
  | .ok x, .ok y =>
    match decEq x y with
    | isTrue h => isTrue (h ▸ rfl)
    | isFalse h => isFalse (fun he => h (Except.ok.inj he))
  | .error x, .error y =>
    match decEq x y with
    | isTrue h => isTrue (h ▸ rfl)
    | isFalse h => isFalse (fun he => h (Except.error.inj he))
  | .ok _, .error _ => isFalse (fun he => Except.noConfusion he)
  | .error _, .ok _ => isFalse (fun he => Except.noConfusion he)

set_option maxRecDepth 4000

/-! The claims. -/

/-- Claim C1: for every graph and class name on which extraction succeeds,
the `required` list is exactly the two hardcoded keys followed by, for each
`owl:equivalentClass` container in discovery order, its compact property
key exactly when its `owl:cardinality` value equals 1 (`reqContrib` is
empty for an absent cardinality or one different from the integer 1);
every discovered property key appears in `properties` regardless. -/
theorem claim_C1_required_iff_cardinality_one (g : Graph) (cn : String)
    (doc : JsonSchema) (h : ttl_to_json g cn = .ok doc) :
    doc.required = ["id", "describedBy"] ++ catMap (reqContrib g) (containersOf g cn) ∧
    ∀ c ∈ containersOf g cn, ∀ k, containerKey g c = some k →
      k ∈ dictKeys doc.properties := by
  obtain ⟨-, -, -, -, -, -, -, hp, hr⟩ := ttl_to_json_ok g cn doc h
  refine ⟨hr, ?_⟩
  intro c hcmem k hk
  rw [hp]
  apply mem_entries_dictKeys_insertEntries
  rw [dictKeys_catMap]
  exact mem_catMap.2 ⟨c, hcmem, by rw [dictKeys_entryContrib, hk]; simp⟩

/-- Witness for C1 on the fixture `g1`: the container with cardinality 1
contributes `ex:a` to `required`; the ones with cardinality 2 and with no
cardinality contribute nothing, while all three keys are in `properties`. -/
theorem claim_C1_witness :
    ttl_to_json g1 "Foo" = Except.ok doc1 ∧
    doc1.required = ["id", "describedBy"] ++ catMap (reqContrib g1) (containersOf g1 "Foo") ∧
    doc1.required = ["id", "describedBy", "ex:a"] :=
  ⟨by decide,
   (claim_C1_required_iff_cardinality_one g1 "Foo" doc1 (by decide)).1,
   by decide⟩

/-- Claim C2: every successfully produced document has the class IRI
obtained by appending the class name to the Terra base namespace as its
identifier, and the fixed draft-07 string as its schema field. -/
theorem claim_C2_id_and_schema (g : Graph) (cn : String) (doc : JsonSchema)
    (h : ttl_to_json g cn = .ok doc) :
    doc.id = Node.iri ("http://datamodel.terra.bio/TerraDCAT_ap#" ++ cn) ∧
    doc.schema = "http://json-schema.org/draft-07/schema#/" := by
  obtain ⟨h1, h2, -⟩ := ttl_to_json_ok g cn doc h
  exact ⟨by rw [h1]; rfl, h2⟩

/-- Witness for C2 on the fixture `g8`. -/
theorem claim_C2_witness :
    ttl_to_json g8 "Foo" = Except.ok doc8 ∧
    doc8.id = Node.iri ("http://datamodel.terra.bio/TerraDCAT_ap#" ++ "Foo") ∧
    doc8.schema = "http://json-schema.org/draft-07/schema#/" :=
  ⟨by decide,
   (claim_C2_id_and_schema g8 "Foo" doc8 (by decide)).1,
   (claim_C2_id_and_schema g8 "Foo" doc8 (by decide)).2⟩

/-- Counterexample to claim C3 as stated: in `g10` the class has two
distinct `owl:equivalentClass` triples (two distinct container nodes), yet
`properties` has only 3 entries, not 2 + 2 — the two containers share the
compact key `ex:bar` and the Python dict keeps one entry for it. -/
theorem claim_C3_counterexample :
    (containersOf g10 "Foo").Nodup ∧
    (containersOf g10 "Foo").length = 2 ∧
    (okProperties (ttl_to_json g10 "Foo")).map List.length = some 3 ∧
    (okProperties (ttl_to_json g10 "Foo")).map List.length ≠
      some (2 + (containersOf g10 "Foo").length) := by
  exact ⟨by decide, by decide, by decide, by decide⟩

/-- Claim C3 (amended): for every graph and class name on which extraction
succeeds, the key list of `properties` is exactly `describedBy` and `id`
followed by the discovered compact property keys in first-occurrence
order — one entry per distinct compact key, not per distinct triple, since
repeated keys collapse onto one dict entry. -/
theorem claim_C3_properties_keys (g : Graph) (cn : String) (doc : JsonSchema)
    (h : ttl_to_json g cn = .ok doc) :
    dictKeys doc.properties = accumKeys ["describedBy", "id"] (derivedKeys g cn) := by
  obtain ⟨-, -, -, -, -, -, -, hp, -⟩ := ttl_to_json_ok g cn doc h
  rw [hp, dictKeys_insertEntries,
    show dictKeys init_properties = ["describedBy", "id"] from rfl]
  congr 1
  rw [dictKeys_catMap]
  exact catMap_congr _ _ _ (fun c _ => dictKeys_entryContrib g c)

/-- Witness for the amended C3 on `g10`: both containers yield the key
`ex:bar`, and `properties` ends up with exactly one `ex:bar` entry after
the two fixed keys. -/
theorem claim_C3_witness :
    ttl_to_json g10 "Foo" = Except.ok doc10 ∧
    dictKeys doc10.properties = accumKeys ["describedBy", "id"] (derivedKeys g10 "Foo") ∧
    dictKeys doc10.properties = ["describedBy", "id", "ex:bar"] ∧
    derivedKeys g10 "Foo" = ["ex:bar", "ex:bar"] :=
  ⟨by decide,
   claim_C3_properties_keys g10 "Foo" doc10 (by decide),
   by decide, by decide⟩

/-- Counterexample to claim C4 as stated: on the empty graph the class name
`Foo` resolves to no triples at all, yet `ttl_to_json` does not fail — it
returns a complete document. -/
theorem claim_C4_counterexample :
    Graph.triplesWithSubject g0 (Terra.term "Foo") = [] ∧
    isError (ttl_to_json g0 "Foo") = false := by
  exact ⟨by decide, by decide⟩

/-- Claim C4 (amended): when the class name resolves to no triples in the
graph, extraction still succeeds, producing a document with a null title,
the placeholder description `"None"` (string coercion of the missing
definition) and only the hardcoded `properties` and `required` entries;
absence of the label or definition alone likewise yields the null or
placeholder fields rather than a failure. -/
theorem claim_C4_no_failure_on_unknown_class (g : Graph) (cn : String)
    (h : g.triplesWithSubject (Terra.term cn) = []) :
    ttl_to_json g cn = .ok
      { id := Terra.term cn
        schema := "http://json-schema.org/draft-07/schema#/"
        title := none
        description := "None"
        definitions := []
        jtype := "object"
        additionalProperties := true
        properties := init_properties
        required := ["id", "describedBy"] } := by
  unfold ttl_to_json
  dsimp only
  rw [h, value_none_of_no_subject_triples g _ h RDFS.label,
    value_none_of_no_subject_triples g _ h Prov.definition]
  rfl

/-- Witness for the amended C4 at the empty graph. -/
theorem claim_C4_witness :
    Graph.triplesWithSubject g0 (Terra.term "Foo") = [] ∧
    ttl_to_json g0 "Foo" = .ok
      { id := Terra.term "Foo"
        schema := "http://json-schema.org/draft-07/schema#/"
        title := none
        description := "None"
        definitions := []
        jtype := "object"
        additionalProperties := true
        properties := init_properties
        required := ["id", "describedBy"] } :=
  ⟨rfl, claim_C4_no_failure_on_unknown_class g0 "Foo" rfl⟩

/-- Counterexample to claim C5 as stated: invoking the exporter on
`["Good", "Bad"]` over `g6`, class `Good` extracts successfully and class
`Bad` fails, yet the run writes no file at all — `Good.json` is not left
behind, because the dict comprehension in `rdf_to_json` finishes every
extraction before `main` writes the first file. -/
theorem claim_C5_counterexample :
    isError (ttl_to_json g6 "Good") = false ∧
    isError (ttl_to_json g6 "Bad") = true ∧
    main_run g6 ["Good", "Bad"] noFile noAnswer =
      ([], some (.attributeError "NoneType object has no attribute n3")) := by
  exact ⟨by decide, by decide, by decide⟩

/-- Claim C5 (amended): in a multi-class invocation, when extraction of
some class fails the run aborts with that exception, and because all
classes are extracted before any file is written, no output file is
written for any class — partial output cannot arise from an extraction
failure. -/
theorem claim_C5_no_partial_output (g : Graph) (class_list : List String)
    (fileExists : String → Bool) (answer : String → String)
    (h : ∃ c ∈ class_list, isError (ttl_to_json g c) = true) :
    (main_run g class_list fileExists answer).1 = [] ∧
    ((main_run g class_list fileExists answer).2).isSome = true := by
  have he := rdf_to_json_error g class_list [] h
  unfold main_run
  cases hr : rdf_to_json g class_list [] with
  | error e => simp
  | ok d => rw [hr] at he; simp [isError] at he

/-- Witness for the amended C5 on `g6` with classes `Good` and `Bad`. -/
theorem claim_C5_witness :
    (main_run g6 ["Good", "Bad"] noFile noAnswer).1 = [] ∧
    ((main_run g6 ["Good", "Bad"] noFile noAnswer).2).isSome = true :=
  claim_C5_no_partial_output g6 ["Good", "Bad"] noFile noAnswer
    ⟨"Bad", by decide, by decide⟩

/-- Claim C6: a graph holding an `owl:equivalentClass` triple for the class
whose container node has no `owl:onProperty` value makes extraction raise
an uncaught error (the Python code calls `.n3` on `None`), rather than
skipping the container. -/
theorem claim_C6_missing_onProperty_errors (g : Graph) (cn : String) (c : Node)
    (h1 : c ∈ containersOf g cn) (h2 : g.value c OWL.onProperty = none) :
    isError (ttl_to_json g cn) = true := by
  unfold ttl_to_json
  dsimp only
  have he := process_triples_error g c h2 (g.triplesWithSubject (Terra.term cn))
    (init_properties, ["id", "describedBy"]) h1
  cases hpt : process_triples g (g.triplesWithSubject (Terra.term cn))
      (init_properties, ["id", "describedBy"]) with
  | error e => rfl
  | ok st => rw [hpt] at he; simp [isError] at he

/-- Witness for C6 on `g6`: the container of class `Bad` has a cardinality
but no `owl:onProperty`, and extraction of `Bad` errors. -/
theorem claim_C6_witness :
    Node.blank 1 ∈ containersOf g6 "Bad" ∧
    (g6.value (Node.blank 1) OWL.onProperty = none) ∧
    isError (ttl_to_json g6 "Bad") = true :=
  ⟨by decide, by decide,
   claim_C6_missing_onProperty_errors g6 "Bad" (Node.blank 1) (by decide) (by decide)⟩

/-- Claim C7: on every successful extraction, every element of `required`
is a key of `properties`, and after the two fixed entries the keys appear
in `required` in the discovery order of the qualifying
`owl:equivalentClass` triples. -/
theorem claim_C7_required_subset_ordered (g : Graph) (cn : String)
    (doc : JsonSchema) (h : ttl_to_json g cn = .ok doc) :
    (∀ k ∈ doc.required, k ∈ dictKeys doc.properties) ∧
    doc.required = ["id", "describedBy"] ++ catMap (reqContrib g) (containersOf g cn) := by
  obtain ⟨-, -, -, -, -, -, -, hp, hr⟩ := ttl_to_json_ok g cn doc h
  refine ⟨?_, hr⟩
  intro k hk
  rw [hr] at hk
  rw [hp]
  rcases List.mem_append.1 hk with hfix | hder
  · apply mem_dictKeys_insertEntries
    rcases (by simpa using hfix : k = "id" ∨ k = "describedBy") with rfl | rfl <;> decide
  · apply mem_entries_dictKeys_insertEntries
    rcases mem_catMap.1 hder with ⟨c, hc, hkc⟩
    rw [dictKeys_catMap]
    exact mem_catMap.2 ⟨c, hc, reqContrib_mem_entry_keys g c k hkc⟩

/-- Witness for C7 on `g1`: `ex:a` (the sole qualifying key) is a key of
`properties`, and `required` lists the qualifying keys in discovery
order after the fixed entries. -/
theorem claim_C7_witness :
    ttl_to_json g1 "Foo" = Except.ok doc1 ∧
    "ex:a" ∈ dictKeys doc1.properties ∧
    doc1.required = ["id", "describedBy"] ++ catMap (reqContrib g1) (containersOf g1 "Foo") :=
  ⟨by decide,
   (claim_C7_required_subset_ordered g1 "Foo" doc1 (by decide)).1 "ex:a" (by decide),
   (claim_C7_required_subset_ordered g1 "Foo" doc1 (by decide)).2⟩

/-- Counterexample to claim C8 as stated: on the fixture graph `g8` the
produced `required` list is as claimed, but `properties["ex:bar"]["$ref"]`
holds the raw `rdfs:range` node, which `json.dump` serializes as the full
IRI `http://www.w3.org/2001/XMLSchema#string` — not the compact string
`xsd:string` (which is what `n3` compaction would give). -/
theorem claim_C8_counterexample :
    okRequired (ttl_to_json g8 "Foo") = some ["id", "describedBy", "ex:bar"] ∧
    refOf (lookupProp (ttl_to_json g8 "Foo") "ex:bar") =
      some (some (.iri "http://www.w3.org/2001/XMLSchema#string")) ∧
    n3 g8 (.iri "http://www.w3.org/2001/XMLSchema#string") = "xsd:string" ∧
    refJson (some (.iri "http://www.w3.org/2001/XMLSchema#string")) =
      some "http://www.w3.org/2001/XMLSchema#string" ∧
    refJson (some (.iri "http://www.w3.org/2001/XMLSchema#string")) ≠ some "xsd:string" := by
  exact ⟨by decide, by decide, by decide, by decide, by decide⟩

/-- Claim C8 (amended): exporting `g8` with class list `["Foo"]` writes
exactly `Foo.json`; its `required` is `["id", "describedBy", "ex:bar"]`
and its `properties["ex:bar"]["$ref"]` serializes to the full range IRI
`"http://www.w3.org/2001/XMLSchema#string"` (the raw `rdfs:range` value,
not its compact form). -/
theorem claim_C8_end_to_end :
    main_run g8 ["Foo"] noFile noAnswer = (["Foo.json"], none) ∧
    okRequired (ttl_to_json g8 "Foo") = some ["id", "describedBy", "ex:bar"] ∧
    (refOf (lookupProp (ttl_to_json g8 "Foo") "ex:bar")).map refJson =
      some (some "http://www.w3.org/2001/XMLSchema#string") := by
  exact ⟨by decide, by decide, by decide⟩

/-- Claim C9: on a successful extraction where the class term has no
`prov:definition` value, `description` is the four-character string
`"None"` (Python `str(None)`), while a missing `rdfs:label` yields a null
`title` — the two absent-value cases are handled asymmetrically. -/
theorem claim_C9_missing_definition_vs_label (g : Graph) (cn : String)
    (doc : JsonSchema) (h : ttl_to_json g cn = .ok doc)
    (hdef : g.value (Terra.term cn) Prov.definition = none)
    (hlab : g.value (Terra.term cn) RDFS.label = none) :
    doc.description = "None" ∧ doc.title = none := by
  obtain ⟨-, -, ht, hd, -⟩ := ttl_to_json_ok g cn doc h
  exact ⟨by rw [hd, hdef]; rfl, by rw [ht, hlab]⟩

/-- Witness for C9 at the empty graph: no label and no definition, so the
title is null while the description is the string `"None"`. -/
theorem claim_C9_witness :
    ttl_to_json g0 "Foo" = Except.ok doc0 ∧
    doc0.description = "None" ∧ doc0.title = none :=
  ⟨by decide,
   (claim_C9_missing_definition_vs_label g0 "Foo" doc0 (by decide) (by decide) (by decide)).1,
   (claim_C9_missing_definition_vs_label g0 "Foo" doc0 (by decide) (by decide) (by decide)).2⟩

/-- Claim C10: on every successful extraction, each key occurs in
`required` once per qualifying container (its count is the number of
containers whose compact key equals it and whose cardinality is 1, plus
its count among the fixed entries), so duplicates are possible in
`required`; meanwhile the keys of `properties` are free of duplicates. -/
theorem claim_C10_required_duplicates (g : Graph) (cn : String)
    (doc : JsonSchema) (h : ttl_to_json g cn = .ok doc) :
    (∀ k : String, doc.required.count k =
      (["id", "describedBy"] : List String).count k +
      ((containersOf g cn).filter
        (fun c => containerKey g c == some k && cardIsOne g c)).length) ∧
    (dictKeys doc.properties).Nodup := by
  obtain ⟨-, -, -, -, -, -, -, hp, hr⟩ := ttl_to_json_ok g cn doc h
  constructor
  · intro k
    rw [hr, List.count_append, count_catMap_reqContrib]
  · rw [hp]
    exact nodup_dictKeys_insertEntries _ init_properties (by decide)

/-- Witness for C10 on `g10`: two containers share the key `ex:bar`, both
with cardinality 1, so `required` holds `ex:bar` twice while the keys of
`properties` hold it once. -/
theorem claim_C10_witness :
    ttl_to_json g10 "Foo" = Except.ok doc10 ∧
    doc10.required.count "ex:bar" =
      (["id", "describedBy"] : List String).count "ex:bar" +
      ((containersOf g10 "Foo").filter
        (fun c => containerKey g10 c == some "ex:bar" && cardIsOne g10 c)).length ∧
    doc10.required.count "ex:bar" = 2 ∧
    (dictKeys doc10.properties).Nodup :=
  ⟨by decide,
   (claim_C10_required_duplicates g10 "Foo" doc10 (by decide)).1 "ex:bar",
   by decide,
   (claim_C10_required_duplicates g10 "Foo" doc10 (by decide)).2⟩
